import Mathlib

/-!
# Capability-configuration model of `curl-sys/include/mesalink/mesalink/options.h`

The repository ships a generated capability-configuration header for the
MesaLink TLS library.  The header itself (the persisted artifact) is the only
code under `src/`; the configuration model around it — `Construct`,
`Validate`, `IsEnabled`, `Serialize`, `Deserialize` — is described by the
specification.  This file embeds both levels:

* the artifact text, faithfully reproduced line by line from
  `src/curl-sys/include/mesalink/mesalink/options.h` (an artifact is modelled
  as its list of text lines; the byte string is their newline-intercalation
  with a trailing newline, exactly as in the source file);
* a C-preprocessor fragment (`#ifndef` / `#ifdef` / `#endif` / `#define` /
  `#undef`) sufficient to give the artifact its include semantics;
* the capability-configuration operations, modelled from the specification
  where the repository does not carry their code.
-/

namespace Mesalink

/-- Modelled from the spec (§7): the repository carries no error type; the
spec names three configuration error kinds.  `ConflictingSelection` carries
the name of the violated invariant, `UnknownCapability` the offending
identifier. -/
inductive ConfigError where
  | UnknownCapability (id : String)
  | ConflictingSelection (invariant : String)
  | MalformedArtifact
deriving DecidableEq

/-- Modelled from the spec (§3): the full mapping from the 10 recognized
capability identifiers to boolean values for one build. -/
structure CapabilitySet where
  client_role : Bool
  server_role : Bool
  error_strings : Bool
  cipher_aesgcm : Bool
  cipher_chachapoly : Bool
  protocol_tls13 : Bool
  kex_x25519 : Bool
  kex_ecdh : Bool
  sig_ecdsa : Bool
  exclude_sgx : Bool
deriving DecidableEq

/-- The 10 recognized capability identifiers, in the fixed table order of
spec §3. -/
def recognizedIds : List String :=
  ["CLIENT_ROLE", "SERVER_ROLE", "ERROR_STRINGS", "CIPHER_AESGCM",
   "CIPHER_CHACHAPOLY", "PROTOCOL_TLS13", "KEX_X25519", "KEX_ECDH",
   "SIG_ECDSA", "EXCLUDE_SGX"]

/-- The default value of each capability (spec §3 table): every capability is
enabled by default except `SERVER_ROLE` — matching the generated header,
where every `#define` is present except the commented-out
`// #define HAVE_SERVER`. -/
def defaults : List (String × Bool) :=
  [("CLIENT_ROLE", true), ("SERVER_ROLE", false), ("ERROR_STRINGS", true),
   ("CIPHER_AESGCM", true), ("CIPHER_CHACHAPOLY", true),
   ("PROTOCOL_TLS13", true), ("KEX_X25519", true), ("KEX_ECDH", true),
   ("SIG_ECDSA", true), ("EXCLUDE_SGX", true)]

/-- First-match association lookup over a key/value list. -/
def lookupKV (l : List (String × Bool)) (k : String) : Option Bool :=
  match l with
  | [] => none
  | kv :: rest => if kv.1 = k then some kv.2 else lookupKV rest k

/-- Modelled from the spec (§4.1 Construct): the resolved value of identifier
`k` — the override value when present, the default otherwise. -/
def resolveOne (ds ovs : List (String × Bool)) (k : String) : Bool :=
  match lookupKV ovs k with
  | some b => b
  | none =>
    match lookupKV ds k with
    | some b => b
    | none => false

/-- The first override key that is not a recognized identifier, if any. -/
def firstUnknown (ovs : List (String × Bool)) : Option String :=
  match ovs with
  | [] => none
  | kv :: rest =>
    if recognizedIds.contains kv.1 then firstUnknown rest else some kv.1

/-- Modelled from the spec (§4.1 Validate): re-checks the §3 invariants in
order, returning the first violated invariant and never aggregating. -/
def Validate (set : CapabilitySet) : Except ConfigError Unit :=
  if !(set.client_role || set.server_role) then
    .error (.ConflictingSelection "no role enabled")
  else if set.protocol_tls13 && !(set.kex_x25519 || set.kex_ecdh) then
    .error (.ConflictingSelection "TLS 1.3 enabled with no key-exchange mechanism")
  else
    .ok ()

/-- Modelled from the spec (§4.1 Construct): resolve each recognized
identifier from overrides layered on defaults.  (Pure resolution; the key
check and validation live in `Construct`.) -/
def resolveSet (ds ovs : List (String × Bool)) : CapabilitySet :=
  { client_role := resolveOne ds ovs "CLIENT_ROLE"
    server_role := resolveOne ds ovs "SERVER_ROLE"
    error_strings := resolveOne ds ovs "ERROR_STRINGS"
    cipher_aesgcm := resolveOne ds ovs "CIPHER_AESGCM"
    cipher_chachapoly := resolveOne ds ovs "CIPHER_CHACHAPOLY"
    protocol_tls13 := resolveOne ds ovs "PROTOCOL_TLS13"
    kex_x25519 := resolveOne ds ovs "KEX_X25519"
    kex_ecdh := resolveOne ds ovs "KEX_ECDH"
    sig_ecdsa := resolveOne ds ovs "SIG_ECDSA"
    exclude_sgx := resolveOne ds ovs "EXCLUDE_SGX" }

/-- Modelled from the spec (§4.1 Construct): fails with `UnknownCapability`
on the first unrecognized override key, otherwise applies the overrides to
the defaults and validates the resolved set. -/
def Construct (ds ovs : List (String × Bool)) : Except ConfigError CapabilitySet :=
  match firstUnknown ovs with
  | some k => .error (.UnknownCapability k)
  | none =>
    let set := resolveSet ds ovs
    match Validate set with
    | .error e => .error e
    | .ok _ => .ok set

/-- Modelled from the spec (§4.1 IsEnabled): query a single capability;
fails with `UnknownCapability` on an unrecognized identifier. -/
def IsEnabled (set : CapabilitySet) (id : String) : Except ConfigError Bool :=
  if id = "CLIENT_ROLE" then .ok set.client_role
  else if id = "SERVER_ROLE" then .ok set.server_role
  else if id = "ERROR_STRINGS" then .ok set.error_strings
  else if id = "CIPHER_AESGCM" then .ok set.cipher_aesgcm
  else if id = "CIPHER_CHACHAPOLY" then .ok set.cipher_chachapoly
  else if id = "PROTOCOL_TLS13" then .ok set.protocol_tls13
  else if id = "KEX_X25519" then .ok set.kex_x25519
  else if id = "KEX_ECDH" then .ok set.kex_ecdh
  else if id = "SIG_ECDSA" then .ok set.sig_ecdsa
  else if id = "EXCLUDE_SGX" then .ok set.exclude_sgx
  else .error (.UnknownCapability id)

/-- The default capability set: the resolution of `defaults` with no
overrides. -/
def defaultSet : CapabilitySet := resolveSet defaults []

/-! ## The persisted artifact

`src/curl-sys/include/mesalink/mesalink/options.h` is the persisted
configuration artifact.  Each capability identifier corresponds to a
preprocessor symbol (`CLIENT_ROLE` to `HAVE_CLIENT`, …, `EXCLUDE_SGX` to
`NO_SGX`); each symbol gets a paired `#undef` / conditional-`#define` block,
the `#define` commented out when the capability is disabled. -/

/-- The preprocessor symbol emitted for each recognized identifier, read off
from the directive blocks of `options.h`. -/
def symbolOf (id : String) : String :=
  if id = "CLIENT_ROLE" then "HAVE_CLIENT"
  else if id = "SERVER_ROLE" then "HAVE_SERVER"
  else if id = "ERROR_STRINGS" then "HAVE_ERROR_STRINGS"
  else if id = "CIPHER_AESGCM" then "HAVE_AESGCM"
  else if id = "CIPHER_CHACHAPOLY" then "HAVE_CHACHAPOLY"
  else if id = "PROTOCOL_TLS13" then "HAVE_TLS13"
  else if id = "KEX_X25519" then "HAVE_X25519"
  else if id = "KEX_ECDH" then "HAVE_ECDH"
  else if id = "SIG_ECDSA" then "HAVE_ECDSA"
  else "NO_SGX"

/-- The resolved boolean value of a recognized identifier in a set, in the
same order as `IsEnabled`. -/
def capValue (set : CapabilitySet) (id : String) : Bool :=
  if id = "CLIENT_ROLE" then set.client_role
  else if id = "SERVER_ROLE" then set.server_role
  else if id = "ERROR_STRINGS" then set.error_strings
  else if id = "CIPHER_AESGCM" then set.cipher_aesgcm
  else if id = "CIPHER_CHACHAPOLY" then set.cipher_chachapoly
  else if id = "PROTOCOL_TLS13" then set.protocol_tls13
  else if id = "KEX_X25519" then set.kex_x25519
  else if id = "KEX_ECDH" then set.kex_ecdh
  else if id = "SIG_ECDSA" then set.sig_ecdsa
  else set.exclude_sgx

/-- The `#undef` line of a directive block (two spaces after `#undef`, as in
the source file). -/
def undefLine (sym : String) : String := "#undef  " ++ sym

/-- The conditional-`#define` line of a directive block: present when the
capability is enabled, kept commented out when it is disabled (as for
`HAVE_SERVER` in the source file). -/
def condDefineLine (sym : String) (b : Bool) : String :=
  if b then "#define " ++ sym else "// #define " ++ sym

/-- One paired `undef` / conditional-`define` directive block, followed by
the blank separator line, as in lines 16–45 of `options.h`. -/
def blockLines (sym : String) (b : Bool) : List String :=
  [undefLine sym, condDefineLine sym b, ""]

/-- Lines 1–15 of `options.h`: leading comment, include-guard opening,
language-linkage opening. -/
def headerTop : List String :=
  ["/* MesaLink options.h",
   " * generated from configure options",
   " *",
   " * This file is part of MesaLink.",
   " *",
   " */",
   "",
   "#ifndef MESALINK_OPTIONS_H",
   "#define MESALINK_OPTIONS_H",
   "",
   "",
   "#ifdef __cplusplus",
   "extern \"C\" \x7b",
   "#endif",
   ""]

/-- Lines 46–52 of `options.h`: language-linkage closing and include-guard
closing. -/
def footerLines : List String :=
  ["",
   "#ifdef __cplusplus",
   "\x7d",
   "#endif",
   "",
   "",
   "#endif /* MESALINK_OPTIONS_H */"]

/-- Modelled from the spec (§4.1 Serialize, §6): the artifact as a list of
text lines — the fixed skeleton with one directive block per recognized
identifier, in the fixed table order. -/
def Serialize (set : CapabilitySet) : List String :=
  headerTop
    ++ (recognizedIds.map (fun id => blockLines (symbolOf id) (capValue set id))).flatten
    ++ footerLines

/-- The artifact byte string: its lines joined by newlines, with the trailing
newline the source file ends in. -/
def serializeBytes (set : CapabilitySet) : String :=
  String.intercalate "\n" (Serialize set) ++ "\n"

/-- The literal contents of `src/curl-sys/include/mesalink/mesalink/options.h`,
line by line. -/
def optionsH : List String :=
  ["/* MesaLink options.h",
   " * generated from configure options",
   " *",
   " * This file is part of MesaLink.",
   " *",
   " */",
   "",
   "#ifndef MESALINK_OPTIONS_H",
   "#define MESALINK_OPTIONS_H",
   "",
   "",
   "#ifdef __cplusplus",
   "extern \"C\" \x7b",
   "#endif",
   "",
   "#undef  HAVE_CLIENT",
   "#define HAVE_CLIENT",
   "",
   "#undef  HAVE_SERVER",
   "// #define HAVE_SERVER",
   "",
   "#undef  HAVE_ERROR_STRINGS",
   "#define HAVE_ERROR_STRINGS",
   "",
   "#undef  HAVE_AESGCM",
   "#define HAVE_AESGCM",
   "",
   "#undef  HAVE_CHACHAPOLY",
   "#define HAVE_CHACHAPOLY",
   "",
   "#undef  HAVE_TLS13",
   "#define HAVE_TLS13",
   "",
   "#undef  HAVE_X25519",
   "#define HAVE_X25519",
   "",
   "#undef  HAVE_ECDH",
   "#define HAVE_ECDH",
   "",
   "#undef  HAVE_ECDSA",
   "#define HAVE_ECDSA",
   "",
   "#undef  NO_SGX",
   "#define NO_SGX",
   "",
   "",
   "#ifdef __cplusplus",
   "\x7d",
   "#endif",
   "",
   "",
   "#endif /* MESALINK_OPTIONS_H */"]

/-- The serializer, applied to the default capability set, reproduces the
source file exactly. -/
theorem serialize_defaultSet_eq_optionsH : Serialize defaultSet = optionsH := by
  decide

/-! ## Deserialization -/

/-- The preprocessor symbols of the recognized identifiers, in table order. -/
def recognizedSyms : List String := recognizedIds.map symbolOf

/-- Consume an exact sequence of expected lines, returning the remainder;
`none` signals a structural mismatch. -/
def dropExact (pat ls : List String) : Option (List String) :=
  match pat, ls with
  | [], rest => some rest
  | p :: ps, l :: rest => if l = p then dropExact ps rest else none
  | _ :: _, [] => none

/-- Recognize a `#undef  NAME` directive line (two spaces, as in the source
file) and extract `NAME`. -/
def stripUndef (l : String) : Option String :=
  match l.data with
  | '#' :: 'u' :: 'n' :: 'd' :: 'e' :: 'f' :: ' ' :: ' ' :: rest => some (String.mk rest)
  | _ => none

/-- Recognize a `#define NAME` directive line and extract `NAME`. -/
def stripDefine (l : String) : Option String :=
  match l.data with
  | '#' :: 'd' :: 'e' :: 'f' :: 'i' :: 'n' :: 'e' :: ' ' :: rest => some (String.mk rest)
  | _ => none

/-- Recognize a commented-out `// #define NAME` directive line and extract
`NAME`. -/
def stripCommentedDefine (l : String) : Option String :=
  match l.data with
  | '/' :: '/' :: ' ' :: '#' :: 'd' :: 'e' :: 'f' :: 'i' :: 'n' :: 'e' :: ' ' :: rest =>
    some (String.mk rest)
  | _ => none

/-- Modelled from the spec (§4.1 Deserialize): parse one paired
`undef` / conditional-`define` directive block.  Fails with
`MalformedArtifact` when the lines do not form a block, and with
`UnknownCapability` when the directive names a symbol outside the
recognized set. -/
def parseBlock (ls : List String) : Except ConfigError ((String × Bool) × List String) :=
  match ls with
  | l1 :: l2 :: "" :: rest =>
    match stripUndef l1 with
    | some sym =>
      if recognizedSyms.contains sym then
        if stripDefine l2 = some sym then .ok ((sym, true), rest)
        else if stripCommentedDefine l2 = some sym then .ok ((sym, false), rest)
        else .error .MalformedArtifact
      else .error (.UnknownCapability sym)
    | none => .error .MalformedArtifact
  | _ => .error .MalformedArtifact

/-- Parse `n` consecutive directive blocks. -/
def parseBlocksN : Nat → List String → Except ConfigError (List (String × Bool) × List String)
  | 0, ls => .ok ([], ls)
  | n + 1, ls =>
    match parseBlock ls with
    | .error e => .error e
    | .ok (kv, rest) =>
      match parseBlocksN n rest with
      | .error e => .error e
      | .ok (kvs, rest2) => .ok (kv :: kvs, rest2)

/-- Assemble a `CapabilitySet` from the parsed symbol/value pairs; `none`
when some recognized symbol has no directive. -/
def buildSet (kvs : List (String × Bool)) : Option CapabilitySet := do
  let c ← lookupKV kvs "HAVE_CLIENT"
  let s ← lookupKV kvs "HAVE_SERVER"
  let es ← lookupKV kvs "HAVE_ERROR_STRINGS"
  let ag ← lookupKV kvs "HAVE_AESGCM"
  let cp ← lookupKV kvs "HAVE_CHACHAPOLY"
  let t ← lookupKV kvs "HAVE_TLS13"
  let x ← lookupKV kvs "HAVE_X25519"
  let e ← lookupKV kvs "HAVE_ECDH"
  let ec ← lookupKV kvs "HAVE_ECDSA"
  let sg ← lookupKV kvs "NO_SGX"
  pure { client_role := c, server_role := s, error_strings := es,
         cipher_aesgcm := ag, cipher_chachapoly := cp, protocol_tls13 := t,
         kex_x25519 := x, kex_ecdh := e, sig_ecdsa := ec, exclude_sgx := sg }

/-- The body stage of deserialization: parse the 10 directive blocks, check
the skeleton tail, assemble and re-validate the set. -/
def deserializeBody (body : List String) : Except ConfigError CapabilitySet :=
  match parseBlocksN 10 body with
  | .error e => .error e
  | .ok (kvs, rest) =>
    if rest = footerLines then
      match buildSet kvs with
      | none => .error .MalformedArtifact
      | some set =>
        match Validate set with
        | .error e => .error e
        | .ok _ => .ok set
    else .error .MalformedArtifact

/-- Modelled from the spec (§4.1 Deserialize): inverse of `Serialize` on the
artifact's lines.  Fails with `MalformedArtifact` on input that does not
parse into the fixed skeleton plus 10 directive blocks, with
`UnknownCapability` on a directive naming an unrecognized symbol, and
re-runs `Validate` before returning success. -/
def Deserialize (ls : List String) : Except ConfigError CapabilitySet :=
  match dropExact headerTop ls with
  | none => .error .MalformedArtifact
  | some body => deserializeBody body

/-- Deserializing the shipped header yields the default capability set. -/
theorem deserialize_optionsH : Deserialize optionsH = .ok defaultSet := by
  rfl

/-! ## Preprocessor semantics of the artifact

The artifact is consumed by the C preprocessor.  We model the fragment the
header uses: `#ifndef` / `#ifdef` push a condition, `#endif` pops, and
`#define` / `#undef` mutate the set of defined symbols when every enclosing
condition holds.  Any other line (comments, blank lines, the `extern`
wrapper, a commented-out directive) is inert text. -/

/-- A classified preprocessor line. -/
inductive PLine where
  | undefSym (s : String)
  | defineSym (s : String)
  | ifdef (s : String)
  | ifndef (s : String)
  | endifD
  | text
deriving DecidableEq

/-- Classify one line of the artifact.  Directive spellings are exactly the
ones in `options.h` (`#undef` with two spaces, `#ifndef NAME`,
`#ifdef NAME`, `#endif` possibly followed by a trailing comment). -/
def parseLine (l : String) : PLine :=
  match l.data with
  | '#' :: 'i' :: 'f' :: 'n' :: 'd' :: 'e' :: 'f' :: ' ' :: rest => .ifndef (String.mk rest)
  | '#' :: 'i' :: 'f' :: 'd' :: 'e' :: 'f' :: ' ' :: rest => .ifdef (String.mk rest)
  | '#' :: 'e' :: 'n' :: 'd' :: 'i' :: 'f' :: _ => .endifD
  | '#' :: 'u' :: 'n' :: 'd' :: 'e' :: 'f' :: ' ' :: ' ' :: rest => .undefSym (String.mk rest)
  | '#' :: 'd' :: 'e' :: 'f' :: 'i' :: 'n' :: 'e' :: ' ' :: rest => .defineSym (String.mk rest)
  | _ => .text

/-- Preprocessor state: the defined symbols and the stack of enclosing
conditional-group values. -/
structure PState where
  defined : List String
  stack : List Bool
deriving DecidableEq

/-- Whether the current position is active: every enclosing condition holds. -/
def PState.active (st : PState) : Bool := st.stack.all id

/-- Add a symbol to the defined set (idempotently). -/
def insertSym (s : String) (D : List String) : List String :=
  if D.contains s then D else s :: D

/-- Remove a symbol from the defined set. -/
def eraseSym (s : String) (D : List String) : List String :=
  D.filter (fun x => x != s)

/-- One preprocessor step on one line. -/
def pstep (st : PState) (l : String) : PState :=
  match parseLine l with
  | .ifndef s => { st with stack := (!(st.defined.contains s)) :: st.stack }
  | .ifdef s => { st with stack := (st.defined.contains s) :: st.stack }
  | .endifD => { st with stack := st.stack.tail }
  | .undefSym s => if st.active then { st with defined := eraseSym s st.defined } else st
  | .defineSym s => if st.active then { st with defined := insertSym s st.defined } else st
  | .text => st

/-- Process a sequence of lines. -/
def processLines (ls : List String) (st : PState) : PState :=
  ls.foldl pstep st

/-- Include the artifact once into a compilation unit whose currently defined
symbols are `D`, yielding the defined symbols afterwards. -/
def includeArtifact (artifact : List String) (D : List String) : List String :=
  (processLines artifact { defined := D, stack := [] }).defined

/-- The net effect of one directive block on the defined symbols: the
unconditional `#undef` always erases the symbol, then the conditional
`#define` re-adds it exactly when the capability is enabled. -/
def applyDirective (sym : String) (b : Bool) (D : List String) : List String :=
  if b then insertSym sym (eraseSym sym D) else eraseSym sym D

/-- The net effect of all 10 directive blocks, in table order. -/
def applyAll (set : CapabilitySet) (D : List String) : List String :=
  recognizedIds.foldl (fun D id => applyDirective (symbolOf id) (capValue set id) D) D

theorem processLines_append (as bs : List String) (st : PState) :
    processLines (as ++ bs) st = processLines bs (processLines as st) := by
  simp [processLines, List.foldl_append]

theorem parseLine_blank : parseLine "" = .text := rfl

theorem parseLine_undef_app (sym : String) :
    parseLine ("#undef  " ++ sym) = .undefSym sym := rfl

theorem parseLine_define_app (sym : String) :
    parseLine ("#define " ++ sym) = .defineSym sym := rfl

theorem parseLine_commented_app (sym : String) :
    parseLine ("// #define " ++ sym) = .text := rfl

/-- Processing one directive block while active applies the directive. -/
theorem processLines_block_active (sym : String) (b : Bool) (st : PState)
    (h : st.stack.all id = true) :
    processLines (blockLines sym b) st =
      { defined := applyDirective sym b st.defined, stack := st.stack } := by
  cases b <;>
    simp [blockLines, undefLine, condDefineLine, processLines, pstep,
          parseLine_undef_app, parseLine_define_app, parseLine_commented_app,
          parseLine_blank, PState.active, h, applyDirective]

/-- Processing one directive block while inactive is a no-op. -/
theorem processLines_block_inactive (sym : String) (b : Bool) (st : PState)
    (h : st.stack.all id = false) :
    processLines (blockLines sym b) st = st := by
  cases b <;>
    simp [blockLines, undefLine, condDefineLine, processLines, pstep,
          parseLine_undef_app, parseLine_define_app, parseLine_commented_app,
          parseLine_blank, PState.active, h]

/-- Processing the 10 directive blocks under the open include guard applies
each directive in turn. -/
theorem processLines_blocks (set : CapabilitySet) (ids : List String) (D : List String) :
    processLines ((ids.map (fun id => blockLines (symbolOf id) (capValue set id))).flatten)
        { defined := D, stack := [true] } =
      { defined :=
          ids.foldl (fun D id => applyDirective (symbolOf id) (capValue set id) D) D,
        stack := [true] } := by
  induction ids generalizing D with
  | nil => rfl
  | cons id rest ih =>
    rw [List.map_cons, List.flatten_cons, processLines_append,
        processLines_block_active _ _ _ (by rfl), List.foldl_cons]
    exact ih _

/-- Processing the 10 directive blocks while the include guard is closed is
a no-op. -/
theorem processLines_blocks_inactive (set : CapabilitySet) (ids : List String)
    (st : PState) (h : st.stack.all id = false) :
    processLines ((ids.map (fun id => blockLines (symbolOf id) (capValue set id))).flatten)
        st = st := by
  induction ids with
  | nil => rfl
  | cons id rest ih =>
    rw [List.map_cons, List.flatten_cons, processLines_append,
        processLines_block_inactive _ _ _ h]
    exact ih

/-- Processing the artifact's skeleton head on first inclusion: the guard is
not yet defined, so the guard symbol gets defined and the guard group is
active. -/
theorem processLines_headerTop (D : List String)
    (hD : D.contains "MESALINK_OPTIONS_H" = false) :
    processLines headerTop { defined := D, stack := [] } =
      { defined := insertSym "MESALINK_OPTIONS_H" D, stack := [true] } := by
  have h8 : processLines headerTop { defined := D, stack := [] } =
      processLines (headerTop.drop 8)
        { defined := D, stack := [!(D.contains "MESALINK_OPTIONS_H")] } := rfl
  rw [h8, hD]
  rfl

/-- Processing the artifact's skeleton head on a repeated inclusion: the
guard is already defined, so the guard group is inactive and nothing
changes. -/
theorem processLines_headerTop_guarded (D : List String)
    (hD : D.contains "MESALINK_OPTIONS_H" = true) :
    processLines headerTop { defined := D, stack := [] } =
      { defined := D, stack := [false] } := by
  have h8 : processLines headerTop { defined := D, stack := [] } =
      processLines (headerTop.drop 8)
        { defined := D, stack := [!(D.contains "MESALINK_OPTIONS_H")] } := rfl
  rw [h8, hD]
  rfl

/-- Processing the artifact's skeleton tail closes the guard group. -/
theorem processLines_footer (D : List String) (b : Bool) :
    processLines footerLines { defined := D, stack := [b] } =
      { defined := D, stack := [] } := rfl

/-- First inclusion of a serialized artifact: the guard symbol gets defined
and every directive block is applied, in table order. -/
theorem includeArtifact_serialize (set : CapabilitySet) (D : List String)
    (hD : D.contains "MESALINK_OPTIONS_H" = false) :
    includeArtifact (Serialize set) D =
      applyAll set (insertSym "MESALINK_OPTIONS_H" D) := by
  unfold includeArtifact Serialize
  rw [processLines_append, processLines_append, processLines_headerTop D hD,
      processLines_blocks, processLines_footer]
  rfl

/-- Repeated inclusion: with the guard symbol already defined, the artifact
changes nothing. -/
theorem includeArtifact_guarded (set : CapabilitySet) (D : List String)
    (hD : D.contains "MESALINK_OPTIONS_H" = true) :
    includeArtifact (Serialize set) D = D := by
  unfold includeArtifact Serialize
  rw [processLines_append, processLines_append, processLines_headerTop_guarded D hD,
      processLines_blocks_inactive _ _ _ (by rfl), processLines_footer]

theorem contains_insertSym_self (s : String) (D : List String) :
    (insertSym s D).contains s = true := by
  unfold insertSym
  split
  · assumption
  · simp

theorem contains_insertSym_other (s t : String) (D : List String) (h : s ≠ t) :
    (insertSym t D).contains s = D.contains s := by
  unfold insertSym
  split
  · rfl
  · simp [List.contains_cons, h]

theorem contains_eraseSym_self (s : String) (D : List String) :
    (eraseSym s D).contains s = false := by
  unfold eraseSym
  simp [List.mem_filter]

theorem contains_eraseSym_other (s t : String) (D : List String) (h : s ≠ t) :
    (eraseSym t D).contains s = D.contains s := by
  unfold eraseSym
  simp [List.mem_filter, h]

theorem contains_applyDirective_self (sym : String) (b : Bool) (D : List String) :
    (applyDirective sym b D).contains sym = b := by
  cases b
  · exact contains_eraseSym_self sym D
  · exact contains_insertSym_self sym (eraseSym sym D)

theorem contains_applyDirective_other (sym : String) (b : Bool) (D : List String)
    (s : String) (h : s ≠ sym) :
    (applyDirective sym b D).contains s = D.contains s := by
  cases b
  · exact contains_eraseSym_other s sym D h
  · show (insertSym sym (eraseSym sym D)).contains s = D.contains s
    rw [contains_insertSym_other s sym _ h, contains_eraseSym_other s sym D h]

/-- `applyAll`, unfolded over the concrete capability table. -/
theorem applyAll_eq (set : CapabilitySet) (D : List String) :
    applyAll set D =
      applyDirective "NO_SGX" set.exclude_sgx
        (applyDirective "HAVE_ECDSA" set.sig_ecdsa
          (applyDirective "HAVE_ECDH" set.kex_ecdh
            (applyDirective "HAVE_X25519" set.kex_x25519
              (applyDirective "HAVE_TLS13" set.protocol_tls13
                (applyDirective "HAVE_CHACHAPOLY" set.cipher_chachapoly
                  (applyDirective "HAVE_AESGCM" set.cipher_aesgcm
                    (applyDirective "HAVE_ERROR_STRINGS" set.error_strings
                      (applyDirective "HAVE_SERVER" set.server_role
                        (applyDirective "HAVE_CLIENT" set.client_role D))))))))) := rfl

/-- After the directive blocks run, each capability symbol is defined exactly
when its capability is enabled, whatever was defined before. -/
theorem contains_applyAll (set : CapabilitySet) (D : List String) (id : String)
    (hid : recognizedIds.contains id = true) :
    (applyAll set D).contains (symbolOf id) = capValue set id := by
  rw [applyAll_eq]
  have hmem : id = "CLIENT_ROLE" ∨ id = "SERVER_ROLE" ∨ id = "ERROR_STRINGS" ∨
      id = "CIPHER_AESGCM" ∨ id = "CIPHER_CHACHAPOLY" ∨ id = "PROTOCOL_TLS13" ∨
      id = "KEX_X25519" ∨ id = "KEX_ECDH" ∨ id = "SIG_ECDSA" ∨
      id = "EXCLUDE_SGX" := by
    simpa [recognizedIds] using hid
  rcases hmem with rfl | rfl | rfl | rfl | rfl | rfl | rfl | rfl | rfl | rfl
  · rw [show symbolOf "CLIENT_ROLE" = "HAVE_CLIENT" from rfl,
        show capValue set "CLIENT_ROLE" = set.client_role from rfl]
    rw [contains_applyDirective_other _ _ _ _ (show ("HAVE_CLIENT" : String) ≠ "NO_SGX" from by decide),
        contains_applyDirective_other _ _ _ _ (show ("HAVE_CLIENT" : String) ≠ "HAVE_ECDSA" from by decide),
        contains_applyDirective_other _ _ _ _ (show ("HAVE_CLIENT" : String) ≠ "HAVE_ECDH" from by decide),
        contains_applyDirective_other _ _ _ _ (show ("HAVE_CLIENT" : String) ≠ "HAVE_X25519" from by decide),
        contains_applyDirective_other _ _ _ _ (show ("HAVE_CLIENT" : String) ≠ "HAVE_TLS13" from by decide),
        contains_applyDirective_other _ _ _ _ (show ("HAVE_CLIENT" : String) ≠ "HAVE_CHACHAPOLY" from by decide),
        contains_applyDirective_other _ _ _ _ (show ("HAVE_CLIENT" : String) ≠ "HAVE_AESGCM" from by decide),
        contains_applyDirective_other _ _ _ _ (show ("HAVE_CLIENT" : String) ≠ "HAVE_ERROR_STRINGS" from by decide),
        contains_applyDirective_other _ _ _ _ (show ("HAVE_CLIENT" : String) ≠ "HAVE_SERVER" from by decide),
        contains_applyDirective_self]
  · rw [show symbolOf "SERVER_ROLE" = "HAVE_SERVER" from rfl,
        show capValue set "SERVER_ROLE" = set.server_role from rfl]
    rw [contains_applyDirective_other _ _ _ _ (show ("HAVE_SERVER" : String) ≠ "NO_SGX" from by decide),
        contains_applyDirective_other _ _ _ _ (show ("HAVE_SERVER" : String) ≠ "HAVE_ECDSA" from by decide),
        contains_applyDirective_other _ _ _ _ (show ("HAVE_SERVER" : String) ≠ "HAVE_ECDH" from by decide),
        contains_applyDirective_other _ _ _ _ (show ("HAVE_SERVER" : String) ≠ "HAVE_X25519" from by decide),
        contains_applyDirective_other _ _ _ _ (show ("HAVE_SERVER" : String) ≠ "HAVE_TLS13" from by decide),
        contains_applyDirective_other _ _ _ _ (show ("HAVE_SERVER" : String) ≠ "HAVE_CHACHAPOLY" from by decide),
        contains_applyDirective_other _ _ _ _ (show ("HAVE_SERVER" : String) ≠ "HAVE_AESGCM" from by decide),
        contains_applyDirective_other _ _ _ _ (show ("HAVE_SERVER" : String) ≠ "HAVE_ERROR_STRINGS" from by decide),
        contains_applyDirective_self]
  · rw [show symbolOf "ERROR_STRINGS" = "HAVE_ERROR_STRINGS" from rfl,
        show capValue set "ERROR_STRINGS" = set.error_strings from rfl]
    rw [contains_applyDirective_other _ _ _ _ (show ("HAVE_ERROR_STRINGS" : String) ≠ "NO_SGX" from by decide),
        contains_applyDirective_other _ _ _ _ (show ("HAVE_ERROR_STRINGS" : String) ≠ "HAVE_ECDSA" from by decide),
        contains_applyDirective_other _ _ _ _ (show ("HAVE_ERROR_STRINGS" : String) ≠ "HAVE_ECDH" from by decide),
        contains_applyDirective_other _ _ _ _ (show ("HAVE_ERROR_STRINGS" : String) ≠ "HAVE_X25519" from by decide),
        contains_applyDirective_other _ _ _ _ (show ("HAVE_ERROR_STRINGS" : String) ≠ "HAVE_TLS13" from by decide),
        contains_applyDirective_other _ _ _ _ (show ("HAVE_ERROR_STRINGS" : String) ≠ "HAVE_CHACHAPOLY" from by decide),
        contains_applyDirective_other _ _ _ _ (show ("HAVE_ERROR_STRINGS" : String) ≠ "HAVE_AESGCM" from by decide),
        contains_applyDirective_self]
  · rw [show symbolOf "CIPHER_AESGCM" = "HAVE_AESGCM" from rfl,
        show capValue set "CIPHER_AESGCM" = set.cipher_aesgcm from rfl]
    rw [contains_applyDirective_other _ _ _ _ (show ("HAVE_AESGCM" : String) ≠ "NO_SGX" from by decide),
        contains_applyDirective_other _ _ _ _ (show ("HAVE_AESGCM" : String) ≠ "HAVE_ECDSA" from by decide),
        contains_applyDirective_other _ _ _ _ (show ("HAVE_AESGCM" : String) ≠ "HAVE_ECDH" from by decide),
        contains_applyDirective_other _ _ _ _ (show ("HAVE_AESGCM" : String) ≠ "HAVE_X25519" from by decide),
        contains_applyDirective_other _ _ _ _ (show ("HAVE_AESGCM" : String) ≠ "HAVE_TLS13" from by decide),
        contains_applyDirective_other _ _ _ _ (show ("HAVE_AESGCM" : String) ≠ "HAVE_CHACHAPOLY" from by decide),
        contains_applyDirective_self]
  · rw [show symbolOf "CIPHER_CHACHAPOLY" = "HAVE_CHACHAPOLY" from rfl,
        show capValue set "CIPHER_CHACHAPOLY" = set.cipher_chachapoly from rfl]
    rw [contains_applyDirective_other _ _ _ _ (show ("HAVE_CHACHAPOLY" : String) ≠ "NO_SGX" from by decide),
        contains_applyDirective_other _ _ _ _ (show ("HAVE_CHACHAPOLY" : String) ≠ "HAVE_ECDSA" from by decide),
        contains_applyDirective_other _ _ _ _ (show ("HAVE_CHACHAPOLY" : String) ≠ "HAVE_ECDH" from by decide),
        contains_applyDirective_other _ _ _ _ (show ("HAVE_CHACHAPOLY" : String) ≠ "HAVE_X25519" from by decide),
        contains_applyDirective_other _ _ _ _ (show ("HAVE_CHACHAPOLY" : String) ≠ "HAVE_TLS13" from by decide),
        contains_applyDirective_self]
  · rw [show symbolOf "PROTOCOL_TLS13" = "HAVE_TLS13" from rfl,
        show capValue set "PROTOCOL_TLS13" = set.protocol_tls13 from rfl]
    rw [contains_applyDirective_other _ _ _ _ (show ("HAVE_TLS13" : String) ≠ "NO_SGX" from by decide),
        contains_applyDirective_other _ _ _ _ (show ("HAVE_TLS13" : String) ≠ "HAVE_ECDSA" from by decide),
        contains_applyDirective_other _ _ _ _ (show ("HAVE_TLS13" : String) ≠ "HAVE_ECDH" from by decide),
        contains_applyDirective_other _ _ _ _ (show ("HAVE_TLS13" : String) ≠ "HAVE_X25519" from by decide),
        contains_applyDirective_self]
  · rw [show symbolOf "KEX_X25519" = "HAVE_X25519" from rfl,
        show capValue set "KEX_X25519" = set.kex_x25519 from rfl]
    rw [contains_applyDirective_other _ _ _ _ (show ("HAVE_X25519" : String) ≠ "NO_SGX" from by decide),
        contains_applyDirective_other _ _ _ _ (show ("HAVE_X25519" : String) ≠ "HAVE_ECDSA" from by decide),
        contains_applyDirective_other _ _ _ _ (show ("HAVE_X25519" : String) ≠ "HAVE_ECDH" from by decide),
        contains_applyDirective_self]
  · rw [show symbolOf "KEX_ECDH" = "HAVE_ECDH" from rfl,
        show capValue set "KEX_ECDH" = set.kex_ecdh from rfl]
    rw [contains_applyDirective_other _ _ _ _ (show ("HAVE_ECDH" : String) ≠ "NO_SGX" from by decide),
        contains_applyDirective_other _ _ _ _ (show ("HAVE_ECDH" : String) ≠ "HAVE_ECDSA" from by decide),
        contains_applyDirective_self]
  · rw [show symbolOf "SIG_ECDSA" = "HAVE_ECDSA" from rfl,
        show capValue set "SIG_ECDSA" = set.sig_ecdsa from rfl]
    rw [contains_applyDirective_other _ _ _ _ (show ("HAVE_ECDSA" : String) ≠ "NO_SGX" from by decide),
        contains_applyDirective_self]
  · rw [show symbolOf "EXCLUDE_SGX" = "NO_SGX" from rfl,
        show capValue set "EXCLUDE_SGX" = set.exclude_sgx from rfl]
    rw [contains_applyDirective_self]

/-- The guard symbol is never a capability symbol, so it stays defined after
the directive blocks run. -/
theorem guard_contains_applyAll (set : CapabilitySet) (D : List String) :
    (applyAll set (insertSym "MESALINK_OPTIONS_H" D)).contains "MESALINK_OPTIONS_H" = true := by
  rw [applyAll_eq]
  rw [contains_applyDirective_other _ _ _ _ (by decide),
      contains_applyDirective_other _ _ _ _ (by decide),
      contains_applyDirective_other _ _ _ _ (by decide),
      contains_applyDirective_other _ _ _ _ (by decide),
      contains_applyDirective_other _ _ _ _ (by decide),
      contains_applyDirective_other _ _ _ _ (by decide),
      contains_applyDirective_other _ _ _ _ (by decide),
      contains_applyDirective_other _ _ _ _ (by decide),
      contains_applyDirective_other _ _ _ _ (by decide),
      contains_applyDirective_other _ _ _ _ (by decide),
      contains_insertSym_self]

/-- Including a serialized artifact leaves the guard symbol defined. -/
theorem guard_after_include (set : CapabilitySet) (D : List String) :
    (includeArtifact (Serialize set) D).contains "MESALINK_OPTIONS_H" = true := by
  cases h : D.contains "MESALINK_OPTIONS_H"
  · rw [includeArtifact_serialize set D h]
    exact guard_contains_applyAll set D
  · rw [includeArtifact_guarded set D h]
    exact h

/-- C9: Processing the serialized artifact is idempotent with respect to
repeated inclusion: because the artifact is wrapped in the
`MESALINK_OPTIONS_H` include guard, including it a second (or any further)
time within one compilation unit leaves the set of defined capability
symbols exactly as after the first inclusion. -/
theorem C9_repeated_inclusion_idempotent (set : CapabilitySet) (D : List String) :
    includeArtifact (Serialize set) (includeArtifact (Serialize set) D) =
      includeArtifact (Serialize set) D := by
  exact includeArtifact_guarded set _ (guard_after_include set D)

/-- C10: Every directive block begins with an unconditional `#undef` of its
capability symbol, so after a first inclusion of the artifact the
defined/undefined state of each of the 10 capability symbols is a function
of the CapabilitySet alone: it equals the capability's resolved value, and
is identical across two runs that differ only in which capability symbols
were ambiently defined before inclusion. -/
theorem C10_cap_symbols_determined (set : CapabilitySet) (D1 D2 : List String)
    (id : String) (h1 : D1.contains "MESALINK_OPTIONS_H" = false)
    (h2 : D2.contains "MESALINK_OPTIONS_H" = false)
    (hid : recognizedIds.contains id = true) :
    (includeArtifact (Serialize set) D1).contains (symbolOf id) = capValue set id ∧
    (includeArtifact (Serialize set) D1).contains (symbolOf id) =
      (includeArtifact (Serialize set) D2).contains (symbolOf id) := by
  have e1 : (includeArtifact (Serialize set) D1).contains (symbolOf id) = capValue set id := by
    rw [includeArtifact_serialize set D1 h1]
    exact contains_applyAll set _ id hid
  have e2 : (includeArtifact (Serialize set) D2).contains (symbolOf id) = capValue set id := by
    rw [includeArtifact_serialize set D2 h2]
    exact contains_applyAll set _ id hid
  exact ⟨e1, e1.trans e2.symm⟩

/-- Witness for C10 at a concrete input: ambiently defining `HAVE_SERVER`
before inclusion does not survive the artifact of the default set, whose
`SERVER_ROLE` is disabled. -/
theorem C10_cap_symbols_determined_witness :
    ([] : List String).contains "MESALINK_OPTIONS_H" = false ∧
    ["HAVE_SERVER"].contains "MESALINK_OPTIONS_H" = false ∧
    recognizedIds.contains "SERVER_ROLE" = true ∧
    ((includeArtifact (Serialize defaultSet) []).contains (symbolOf "SERVER_ROLE") =
        capValue defaultSet "SERVER_ROLE" ∧
      (includeArtifact (Serialize defaultSet) []).contains (symbolOf "SERVER_ROLE") =
        (includeArtifact (Serialize defaultSet) ["HAVE_SERVER"]).contains
          (symbolOf "SERVER_ROLE")) :=
  ⟨rfl, rfl, rfl,
    C10_cap_symbols_determined defaultSet [] ["HAVE_SERVER"] "SERVER_ROLE" rfl rfl rfl⟩

/-! ## Construction, validation, query -/

/-- `Validate` succeeds exactly when both §3 invariants hold. -/
theorem validate_ok_iff (set : CapabilitySet) :
    Validate set = .ok () ↔
      ((set.client_role || set.server_role) = true ∧
       (set.protocol_tls13 && !(set.kex_x25519 || set.kex_ecdh)) = false) := by
  obtain ⟨c, s, es, ag, cp, t, x, e, ec, sg⟩ := set
  cases c <;> cases s <;> cases t <;> cases x <;> cases e <;> simp [Validate]

/-- `Validate` fails with a `ConflictingSelection` exactly when some §3
invariant is violated. -/
theorem validate_conflict_iff (set : CapabilitySet) :
    (∃ s, Validate set = .error (.ConflictingSelection s)) ↔
      ((set.client_role = false ∧ set.server_role = false) ∨
       (set.protocol_tls13 = true ∧ set.kex_x25519 = false ∧
        set.kex_ecdh = false)) := by
  obtain ⟨c, s, es, ag, cp, t, x, e, ec, sg⟩ := set
  cases c <;> cases s <;> cases t <;> cases x <;> cases e <;> simp [Validate]

/-- Every `Validate` error is a `ConflictingSelection`. -/
theorem validate_error_shape (set : CapabilitySet) (e : ConfigError)
    (h : Validate set = .error e) : ∃ s, e = .ConflictingSelection s := by
  unfold Validate at h
  split at h
  · exact ⟨_, (Except.error.inj h).symm⟩
  · split at h
    · exact ⟨_, (Except.error.inj h).symm⟩
    · cases h

theorem firstUnknown_none_iff (ovs : List (String × Bool)) :
    firstUnknown ovs = none ↔ ∀ kv ∈ ovs, recognizedIds.contains kv.1 = true := by
  induction ovs with
  | nil =>
    constructor
    · intro _ kv hm
      cases hm
    · intro _
      rfl
  | cons kv rest ih =>
    unfold firstUnknown
    cases h : recognizedIds.contains kv.1 with
    | true =>
      show firstUnknown rest = none ↔ _
      rw [ih]
      constructor
      · intro hall kv2 hm
        rcases List.mem_cons.mp hm with heq | hm2
        · rw [heq]; exact h
        · exact hall kv2 hm2
      · intro hall kv2 hm2
        exact hall kv2 (List.mem_cons_of_mem _ hm2)
    | false =>
      show some kv.1 = none ↔ _
      constructor
      · intro hc
        cases hc
      · intro hall
        have hx := hall kv (List.mem_cons_self kv rest)
        rw [h] at hx
        cases hx

theorem firstUnknown_some_mem (ovs : List (String × Bool)) (k : String)
    (h : firstUnknown ovs = some k) :
    ∃ kv ∈ ovs, kv.1 = k ∧ recognizedIds.contains kv.1 = false := by
  induction ovs with
  | nil => cases h
  | cons kv rest ih =>
    unfold firstUnknown at h
    cases hk : recognizedIds.contains kv.1 with
    | true =>
      rw [hk, if_pos rfl] at h
      obtain ⟨kv2, hmem, hcond⟩ := ih h
      exact ⟨kv2, List.mem_cons_of_mem _ hmem, hcond⟩
    | false =>
      rw [hk, if_neg (by simp)] at h
      exact ⟨kv, List.mem_cons_self _ _, Option.some.inj h, hk⟩

/-- `Construct`, once the override keys are known to be recognized, is the
validation of the resolved set. -/
theorem construct_of_known_keys (ds ovs : List (String × Bool))
    (hfu : firstUnknown ovs = none) :
    Construct ds ovs =
      match Validate (resolveSet ds ovs) with
      | .error e => .error e
      | .ok _ => .ok (resolveSet ds ovs) := by
  unfold Construct
  rw [hfu]

/-- A successful `Construct` returns a set that validates. -/
theorem construct_ok_validate (ds ovs : List (String × Bool)) (set : CapabilitySet)
    (h : Construct ds ovs = .ok set) : Validate set = .ok () := by
  unfold Construct at h
  cases hfu : firstUnknown ovs with
  | some k => rw [hfu] at h; cases h
  | none =>
    rw [hfu] at h
    simp only at h
    cases hv : Validate (resolveSet ds ovs) with
    | error e => rw [hv] at h; cases h
    | ok u =>
      rw [hv] at h
      cases u
      rw [← Except.ok.inj h]
      exact hv

/-- C2: Construction from the defaults with an empty override mapping
succeeds, and `IsEnabled` of the result reproduces the §3 default of every
recognized identifier: `SERVER_ROLE` disabled, the other nine enabled. -/
theorem C2_defaults_reproduced :
    Construct defaults [] = .ok defaultSet ∧
    IsEnabled defaultSet "CLIENT_ROLE" = .ok true ∧
    IsEnabled defaultSet "SERVER_ROLE" = .ok false ∧
    IsEnabled defaultSet "ERROR_STRINGS" = .ok true ∧
    IsEnabled defaultSet "CIPHER_AESGCM" = .ok true ∧
    IsEnabled defaultSet "CIPHER_CHACHAPOLY" = .ok true ∧
    IsEnabled defaultSet "PROTOCOL_TLS13" = .ok true ∧
    IsEnabled defaultSet "KEX_X25519" = .ok true ∧
    IsEnabled defaultSet "KEX_ECDH" = .ok true ∧
    IsEnabled defaultSet "SIG_ECDSA" = .ok true ∧
    IsEnabled defaultSet "EXCLUDE_SGX" = .ok true :=
  ⟨rfl, rfl, rfl, rfl, rfl, rfl, rfl, rfl, rfl, rfl, rfl⟩

/-- C8: `Validate` returns the error of the first violated invariant in §3
order and does not aggregate: a set violating both the role invariant and
the TLS 1.3 key-exchange invariant yields the role error alone; a set
violating only the TLS 1.3 invariant yields that error; and `Validate`
succeeds exactly when no invariant is violated. -/
theorem C8_validate_first_violation (set : CapabilitySet) :
    (set.client_role = false ∧ set.server_role = false ∧
     set.protocol_tls13 = true ∧ set.kex_x25519 = false ∧ set.kex_ecdh = false →
      Validate set = .error (.ConflictingSelection "no role enabled")) ∧
    ((set.client_role || set.server_role) = true ∧
     set.protocol_tls13 = true ∧ set.kex_x25519 = false ∧ set.kex_ecdh = false →
      Validate set =
        .error (.ConflictingSelection "TLS 1.3 enabled with no key-exchange mechanism")) ∧
    (Validate set = .ok () ↔
      ((set.client_role || set.server_role) = true ∧
       (set.protocol_tls13 && !(set.kex_x25519 || set.kex_ecdh)) = false)) := by
  obtain ⟨c, s, es, ag, cp, t, x, e, ec, sg⟩ := set
  cases c <;> cases s <;> cases t <;> cases x <;> cases e <;> simp [Validate]

/-- Witness for C8: the set with no role enabled, TLS 1.3 on and both key
exchanges off violates both invariants and gets the role error. -/
theorem C8_validate_first_violation_witness :
    Validate ⟨false, false, true, true, true, true, false, false, true, true⟩ =
      .error (.ConflictingSelection "no role enabled") :=
  (C8_validate_first_violation
      ⟨false, false, true, true, true, true, false, false, true, true⟩).1
    ⟨rfl, rfl, rfl, rfl, rfl⟩

/-- C3: With all override keys recognized, `Construct` fails with
`ConflictingSelection` exactly when the resolved values violate a §3
invariant — no role enabled, or TLS 1.3 enabled with no key exchange — and
the two spec examples fail with the corresponding invariant's error. -/
theorem C3_conflicting_selection (m : List (String × Bool))
    (hkeys : ∀ kv ∈ m, recognizedIds.contains kv.1 = true) :
    ((∃ s, Construct defaults m = .error (.ConflictingSelection s)) ↔
      ((resolveOne defaults m "CLIENT_ROLE" = false ∧
        resolveOne defaults m "SERVER_ROLE" = false) ∨
       (resolveOne defaults m "PROTOCOL_TLS13" = true ∧
        resolveOne defaults m "KEX_X25519" = false ∧
        resolveOne defaults m "KEX_ECDH" = false))) ∧
    Construct defaults [("CLIENT_ROLE", false), ("SERVER_ROLE", false)] =
      .error (.ConflictingSelection "no role enabled") ∧
    Construct defaults
        [("PROTOCOL_TLS13", true), ("KEX_X25519", false), ("KEX_ECDH", false)] =
      .error (.ConflictingSelection "TLS 1.3 enabled with no key-exchange mechanism") := by
  refine ⟨?_, rfl, rfl⟩
  rw [construct_of_known_keys defaults m ((firstUnknown_none_iff m).mpr hkeys)]
  have hres := validate_conflict_iff (resolveSet defaults m)
  constructor
  · rintro ⟨s, hs⟩
    cases hv : Validate (resolveSet defaults m) with
    | error e =>
      rw [hv] at hs
      exact hres.mp ⟨s, by rw [hv, Except.error.inj hs]⟩
    | ok u =>
      rw [hv] at hs
      exact Except.noConfusion hs
  · intro hrhs
    obtain ⟨s, hs⟩ := hres.mpr hrhs
    exact ⟨s, by rw [hs]⟩

/-- Witness for C3 at a concrete override mapping: disabling `KEX_X25519`
and `KEX_ECDH` while TLS 1.3 stays enabled is a conflicting selection. -/
theorem C3_conflicting_selection_witness :
    (∀ kv ∈ [("KEX_X25519", false), ("KEX_ECDH", false)],
      recognizedIds.contains kv.1 = true) ∧
    (∃ s, Construct defaults [("KEX_X25519", false), ("KEX_ECDH", false)] =
      .error (.ConflictingSelection s)) :=
  ⟨by decide,
    (C3_conflicting_selection [("KEX_X25519", false), ("KEX_ECDH", false)]
        (by decide)).1.mpr
      (Or.inr ⟨rfl, rfl, rfl⟩)⟩

/-- C4: `UnknownCapability` arises exactly from unrecognized identifiers:
`Construct` with the override key `NOT_A_REAL_FLAG` fails with it,
`Construct` fails with it precisely when some override key is unrecognized,
`IsEnabled` fails with it on an unrecognized identifier, and `IsEnabled`
returns a boolean with no error on every recognized identifier. -/
theorem C4_unknown_capability (m : List (String × Bool)) (set : CapabilitySet)
    (id : String) :
    Construct defaults [("NOT_A_REAL_FLAG", true)] =
        .error (.UnknownCapability "NOT_A_REAL_FLAG") ∧
    ((∃ k, Construct defaults m = .error (.UnknownCapability k)) ↔
      ∃ kv ∈ m, recognizedIds.contains kv.1 = false) ∧
    (recognizedIds.contains id = false →
      IsEnabled set id = .error (.UnknownCapability id)) ∧
    (recognizedIds.contains id = true → ∃ b, IsEnabled set id = .ok b) := by
  refine ⟨rfl, ⟨?_, ?_⟩, ?_, ?_⟩
  · rintro ⟨k, hk⟩
    cases hfu : firstUnknown m with
    | some k2 =>
      obtain ⟨kv, hmem, hk1, hcont⟩ := firstUnknown_some_mem m k2 hfu
      exact ⟨kv, hmem, hcont⟩
    | none =>
      rw [construct_of_known_keys defaults m hfu] at hk
      cases hv : Validate (resolveSet defaults m) with
      | error e =>
        rw [hv] at hk
        obtain ⟨s, hes⟩ := validate_error_shape _ e hv
        rw [hes] at hk
        exact ConfigError.noConfusion (Except.error.inj hk)
      | ok u =>
        rw [hv] at hk
        cases u
        exact Except.noConfusion hk
  · rintro ⟨kv, hmem, hcont⟩
    cases hfu : firstUnknown m with
    | some k2 =>
      refine ⟨k2, ?_⟩
      unfold Construct
      rw [hfu]
    | none =>
      have hx := (firstUnknown_none_iff m).mp hfu kv hmem
      rw [hcont] at hx
      exact Bool.noConfusion hx
  · intro h
    have h1 : id ≠ "CLIENT_ROLE" := fun he => absurd (he ▸ h) (by decide)
    have h2 : id ≠ "SERVER_ROLE" := fun he => absurd (he ▸ h) (by decide)
    have h3 : id ≠ "ERROR_STRINGS" := fun he => absurd (he ▸ h) (by decide)
    have h4 : id ≠ "CIPHER_AESGCM" := fun he => absurd (he ▸ h) (by decide)
    have h5 : id ≠ "CIPHER_CHACHAPOLY" := fun he => absurd (he ▸ h) (by decide)
    have h6 : id ≠ "PROTOCOL_TLS13" := fun he => absurd (he ▸ h) (by decide)
    have h7 : id ≠ "KEX_X25519" := fun he => absurd (he ▸ h) (by decide)
    have h8 : id ≠ "KEX_ECDH" := fun he => absurd (he ▸ h) (by decide)
    have h9 : id ≠ "SIG_ECDSA" := fun he => absurd (he ▸ h) (by decide)
    have h10 : id ≠ "EXCLUDE_SGX" := fun he => absurd (he ▸ h) (by decide)
    simp only [IsEnabled]
    rw [if_neg h1, if_neg h2, if_neg h3, if_neg h4, if_neg h5, if_neg h6,
        if_neg h7, if_neg h8, if_neg h9, if_neg h10]
  · intro h
    by_cases h1 : id = "CLIENT_ROLE"
    · subst h1; exact ⟨_, rfl⟩
    by_cases h2 : id = "SERVER_ROLE"
    · subst h2; exact ⟨_, rfl⟩
    by_cases h3 : id = "ERROR_STRINGS"
    · subst h3; exact ⟨_, rfl⟩
    by_cases h4 : id = "CIPHER_AESGCM"
    · subst h4; exact ⟨_, rfl⟩
    by_cases h5 : id = "CIPHER_CHACHAPOLY"
    · subst h5; exact ⟨_, rfl⟩
    by_cases h6 : id = "PROTOCOL_TLS13"
    · subst h6; exact ⟨_, rfl⟩
    by_cases h7 : id = "KEX_X25519"
    · subst h7; exact ⟨_, rfl⟩
    by_cases h8 : id = "KEX_ECDH"
    · subst h8; exact ⟨_, rfl⟩
    by_cases h9 : id = "SIG_ECDSA"
    · subst h9; exact ⟨_, rfl⟩
    by_cases h10 : id = "EXCLUDE_SGX"
    · subst h10; exact ⟨_, rfl⟩
    exfalso
    simp [recognizedIds, List.contains_cons, h1, h2, h3, h4, h5, h6, h7, h8,
          h9, h10] at h

/-- Witness for C4 at concrete inputs: querying the unrecognized identifier
`BOGUS` fails, querying the recognized `CLIENT_ROLE` succeeds. -/
theorem C4_unknown_capability_witness :
    recognizedIds.contains "BOGUS" = false ∧
    IsEnabled defaultSet "BOGUS" = .error (.UnknownCapability "BOGUS") ∧
    recognizedIds.contains "CLIENT_ROLE" = true ∧
    (∃ b, IsEnabled defaultSet "CLIENT_ROLE" = .ok b) :=
  ⟨rfl, (C4_unknown_capability [] defaultSet "BOGUS").2.2.1 rfl, rfl,
    (C4_unknown_capability [] defaultSet "CLIENT_ROLE").2.2.2 rfl⟩

/-- C6: `Serialize` is deterministic — two capability sets whose resolved
values agree on every recognized identifier produce byte-identical
artifacts. -/
theorem C6_serialize_deterministic (s1 s2 : CapabilitySet)
    (h : ∀ id ∈ recognizedIds, capValue s1 id = capValue s2 id) :
    serializeBytes s1 = serializeBytes s2 := by
  have he : s1 = s2 := by
    obtain ⟨c1, r1, g1, a1, p1, l1, x1, d1, q1, z1⟩ := s1
    obtain ⟨c2, r2, g2, a2, p2, l2, x2, d2, q2, z2⟩ := s2
    have e1 : c1 = c2 := h "CLIENT_ROLE" (by decide)
    have e2 : r1 = r2 := h "SERVER_ROLE" (by decide)
    have e3 : g1 = g2 := h "ERROR_STRINGS" (by decide)
    have e4 : a1 = a2 := h "CIPHER_AESGCM" (by decide)
    have e5 : p1 = p2 := h "CIPHER_CHACHAPOLY" (by decide)
    have e6 : l1 = l2 := h "PROTOCOL_TLS13" (by decide)
    have e7 : x1 = x2 := h "KEX_X25519" (by decide)
    have e8 : d1 = d2 := h "KEX_ECDH" (by decide)
    have e9 : q1 = q2 := h "SIG_ECDSA" (by decide)
    have e10 : z1 = z2 := h "EXCLUDE_SGX" (by decide)
    rw [e1, e2, e3, e4, e5, e6, e7, e8, e9, e10]
  rw [he]

/-- Witness for C6 at concrete inputs: the default set and its literal
record value agree on every identifier and serialize identically. -/
theorem C6_serialize_deterministic_witness :
    (∀ id ∈ recognizedIds,
      capValue defaultSet id =
        capValue ⟨true, false, true, true, true, true, true, true, true, true⟩ id) ∧
    serializeBytes defaultSet =
      serializeBytes ⟨true, false, true, true, true, true, true, true, true, true⟩ :=
  ⟨fun _ _ => rfl,
    C6_serialize_deterministic defaultSet
      ⟨true, false, true, true, true, true, true, true, true, true⟩
      (fun _ _ => rfl)⟩

/-! ## Canonical artifact form -/

theorem filter_blockLines (sym : String) (b : Bool) :
    (blockLines sym b).filter (fun l => (stripUndef l).isSome) = [undefLine sym] := by
  cases b <;> rfl

theorem filter_blocks (set : CapabilitySet) (ids : List String) :
    ((ids.map (fun id => blockLines (symbolOf id) (capValue set id))).flatten).filter
        (fun l => (stripUndef l).isSome) =
      ids.map (fun id => undefLine (symbolOf id)) := by
  induction ids with
  | nil => rfl
  | cons id rest ih =>
    rw [List.map_cons, List.flatten_cons, List.filter_append, filter_blockLines,
        ih, List.map_cons, List.singleton_append]

/-- C5: `Serialize` emits exactly one paired `undef` / conditional-`define`
block per recognized identifier, in the fixed table order: the `#undef`
lines of the artifact are exactly the 10 capability `#undef` lines in table
order; the block at offset `15 + 3k` is the block of the `k`-th identifier;
and a block's conditional-define line is `#define SYM` when the capability
is enabled and the commented-out `// #define SYM` when it is disabled. -/
theorem C5_canonical_form (set : CapabilitySet) :
    ((Serialize set).filter (fun l => (stripUndef l).isSome) =
      recognizedIds.map (fun id => undefLine (symbolOf id))) ∧
    (∀ k, k < 10 →
      ((Serialize set).drop (15 + 3 * k)).take 3 =
        blockLines (symbolOf (recognizedIds.getD k ""))
          (capValue set (recognizedIds.getD k ""))) ∧
    (∀ sym, condDefineLine sym true = "#define " ++ sym ∧
      condDefineLine sym false = "// #define " ++ sym) := by
  refine ⟨?_, ?_, fun sym => ⟨rfl, rfl⟩⟩
  · unfold Serialize
    rw [List.filter_append, List.filter_append, filter_blocks]
    have hh : headerTop.filter (fun l => (stripUndef l).isSome) = [] := rfl
    have hf : footerLines.filter (fun l => (stripUndef l).isSome) = [] := rfl
    rw [hh, hf, List.append_nil, List.nil_append]
  · intro k hk
    interval_cases k <;> rfl

/-- Witness for C5 at a concrete index: the second block of the artifact is
the `HAVE_SERVER` block. -/
theorem C5_canonical_form_witness :
    1 < 10 ∧
    ((Serialize defaultSet).drop (15 + 3 * 1)).take 3 =
      blockLines (symbolOf (recognizedIds.getD 1 ""))
        (capValue defaultSet (recognizedIds.getD 1 "")) :=
  ⟨by decide, (C5_canonical_form defaultSet).2.1 1 (by decide)⟩

/-! ## Round trip -/

theorem dropExact_self_append (pat ls : List String) :
    dropExact pat (pat ++ ls) = some ls := by
  induction pat with
  | nil => rfl
  | cons p ps ih =>
    show (if p = p then dropExact ps (ps ++ ls) else none) = some ls
    rw [if_pos rfl]
    exact ih

/-- Parsing one serialized block recovers the symbol and its value. -/
theorem parseBlock_blockLines (sym : String) (b : Bool) (rest : List String)
    (h : recognizedSyms.contains sym = true) :
    parseBlock (blockLines sym b ++ rest) = .ok ((sym, b), rest) := by
  cases b
  · show (if recognizedSyms.contains sym = true then
        if stripDefine (condDefineLine sym false) = some sym then
          Except.ok ((sym, true), rest)
        else if stripCommentedDefine (condDefineLine sym false) = some sym then
          Except.ok ((sym, false), rest)
        else Except.error ConfigError.MalformedArtifact
      else Except.error (ConfigError.UnknownCapability sym)) =
        Except.ok ((sym, false), rest)
    rw [h, if_pos rfl,
        if_neg (fun hcon => Option.noConfusion hcon :
          ¬(stripDefine (condDefineLine sym false) = some sym)),
        if_pos (show stripCommentedDefine (condDefineLine sym false) = some sym
          from rfl)]
  · show (if recognizedSyms.contains sym = true then
        if stripDefine (condDefineLine sym true) = some sym then
          Except.ok ((sym, true), rest)
        else if stripCommentedDefine (condDefineLine sym true) = some sym then
          Except.ok ((sym, false), rest)
        else Except.error ConfigError.MalformedArtifact
      else Except.error (ConfigError.UnknownCapability sym)) =
        Except.ok ((sym, true), rest)
    rw [h, if_pos rfl,
        if_pos (show stripDefine (condDefineLine sym true) = some sym from rfl)]

/-- Parsing the serialized blocks of an identifier list recovers the
symbol/value pairs in order. -/
theorem parseBlocksN_blocks (set : CapabilitySet) (ids : List String)
    (rest : List String)
    (h : ∀ id ∈ ids, recognizedSyms.contains (symbolOf id) = true) :
    parseBlocksN ids.length
        ((ids.map (fun id => blockLines (symbolOf id) (capValue set id))).flatten
          ++ rest) =
      .ok (ids.map (fun id => (symbolOf id, capValue set id)), rest) := by
  induction ids generalizing rest with
  | nil => rfl
  | cons id ids2 ih =>
    rw [List.map_cons, List.flatten_cons, List.append_assoc, List.length_cons]
    show (match parseBlock (blockLines (symbolOf id) (capValue set id) ++
        ((ids2.map (fun id => blockLines (symbolOf id) (capValue set id))).flatten
          ++ rest)) with
      | Except.error e => Except.error e
      | Except.ok (kv, rest2) =>
        match parseBlocksN ids2.length rest2 with
        | Except.error e => Except.error e
        | Except.ok (kvs, rest3) => Except.ok (kv :: kvs, rest3)) =
      Except.ok ((id :: ids2).map (fun id => (symbolOf id, capValue set id)), rest)
    rw [parseBlock_blockLines _ _ _ (h id (List.mem_cons_self id ids2))]
    show (match parseBlocksN ids2.length
        ((ids2.map (fun id => blockLines (symbolOf id) (capValue set id))).flatten
          ++ rest) with
      | Except.error e => Except.error e
      | Except.ok (kvs, rest3) =>
        Except.ok ((symbolOf id, capValue set id) :: kvs, rest3)) =
      Except.ok ((id :: ids2).map (fun id => (symbolOf id, capValue set id)), rest)
    rw [ih _ (fun id2 hm => h id2 (List.mem_cons_of_mem _ hm))]
    rfl

/-- `parseBlocksN` specialised to the 10 recognized identifiers. -/
theorem parseBlocksN_ten (set : CapabilitySet) (rest : List String) :
    parseBlocksN 10
        ((recognizedIds.map (fun id => blockLines (symbolOf id) (capValue set id))).flatten
          ++ rest) =
      .ok (recognizedIds.map (fun id => (symbolOf id, capValue set id)), rest) :=
  parseBlocksN_blocks set recognizedIds rest (by decide)

/-- Deserialization is a left inverse of serialization on validated sets. -/
theorem deserialize_serialize (set : CapabilitySet)
    (hval : Validate set = .ok ()) :
    Deserialize (Serialize set) = .ok set := by
  have h1 : Serialize set =
      headerTop ++
        ((recognizedIds.map (fun id => blockLines (symbolOf id) (capValue set id))).flatten
          ++ footerLines) := by
    unfold Serialize
    rw [List.append_assoc]
  rw [h1]
  unfold Deserialize
  rw [dropExact_self_append]
  show deserializeBody _ = .ok set
  unfold deserializeBody
  rw [parseBlocksN_ten]
  show (if footerLines = footerLines then
      match buildSet (recognizedIds.map fun id => (symbolOf id, capValue set id)) with
      | none => Except.error ConfigError.MalformedArtifact
      | some set2 =>
        match Validate set2 with
        | Except.error e => Except.error e
        | Except.ok _ => Except.ok set2
    else Except.error ConfigError.MalformedArtifact) = Except.ok set
  rw [if_pos rfl]
  show (match Validate set with
    | Except.error e => Except.error e
    | Except.ok _ => Except.ok set) = Except.ok set
  rw [hval]

/-- C1: For every override mapping for which `Construct` succeeds,
deserializing the serialized artifact succeeds and yields a set that agrees
with the constructed one on `IsEnabled` at every recognized identifier. -/
theorem C1_roundtrip (m : List (String × Bool)) (set : CapabilitySet)
    (h : Construct defaults m = .ok set) :
    ∃ q, Deserialize (Serialize set) = .ok q ∧
      ∀ id ∈ recognizedIds, IsEnabled q id = IsEnabled set id :=
  ⟨set, deserialize_serialize set (construct_ok_validate defaults m set h),
    fun _ _ => rfl⟩

/-- Witness for C1 at the empty override mapping. -/
theorem C1_roundtrip_witness :
    Construct defaults [] = .ok defaultSet ∧
    ∃ q, Deserialize (Serialize defaultSet) = .ok q ∧
      ∀ id ∈ recognizedIds, IsEnabled q id = IsEnabled defaultSet id :=
  ⟨rfl, C1_roundtrip [] defaultSet rfl⟩

/-- C7: `Deserialize` fails with `MalformedArtifact` on truncated or garbled
input rather than falling back to defaults, fails with `UnknownCapability`
on a directive naming an unrecognized symbol, and re-runs `Validate` before
returning success, so every set it returns validates. -/
theorem C7_deserialize_errors :
    Deserialize [] = .error .MalformedArtifact ∧
    Deserialize (optionsH.take 30) = .error .MalformedArtifact ∧
    Deserialize (headerTop ++ ["garbage"]) = .error .MalformedArtifact ∧
    Deserialize (headerTop ++ blockLines "HAVE_QUANTUM" true) =
      .error (.UnknownCapability "HAVE_QUANTUM") ∧
    ∀ ls set, Deserialize ls = .ok set → Validate set = .ok () := by
  refine ⟨rfl, rfl, rfl, rfl, ?_⟩
  intro ls set h
  unfold Deserialize at h
  split at h
  · exact Except.noConfusion h
  · unfold deserializeBody at h
    split at h
    · exact Except.noConfusion h
    · split at h
      · split at h
        · exact Except.noConfusion h
        · split at h
          · exact Except.noConfusion h
          · rename_i set2 u hv
            cases u
            rw [← Except.ok.inj h]
            exact hv
      · exact Except.noConfusion h

/-- Witness for C7: deserializing the shipped header returns a set, and that
set validates. -/
theorem C7_deserialize_errors_witness :
    Deserialize optionsH = .ok defaultSet ∧ Validate defaultSet = .ok () :=
  ⟨deserialize_optionsH,
    C7_deserialize_errors.2.2.2.2 optionsH defaultSet deserialize_optionsH⟩

end Mesalink
